import Mathlib

/-!
Verification of the LangTip keyboard-layout indicator (Rust, Windows).

This file gives a shallow embedding of the program's pure decision logic and
state machines, translated directly from the source files:

  * `src/keyboard_hook.rs` — debounce filter and layout re-check
    (`check_layout_change`, `check_layout_change_debounced`, `LAST_EVENT_MS`,
    `KeyboardLayoutHook::stop`);
  * `src/indicator.rs` — `IndicatorWindow` fade state machine (`show`, `hide`,
    `update_text`, `update_fade`, `FADE_STEP`) and `calculate_position`;
  * `src/monitors.rs` — `MonitorInfo`;
  * `src/config.rs` — `AppConfig` and its sub-structures;
  * `src/main.rs` — the Coordinator main loop (one iteration = `coordTick`)
    and the shutdown sequence.

Times are modelled in milliseconds as `Nat`; `Instant::elapsed`-style
differences become truncated `Nat` subtraction, which agrees with the Rust
code because monotonic clocks never run backwards and the code itself uses
`saturating_sub` on the one raw subtraction it performs.  `u8` arithmetic in
the fade logic is modelled on `Nat` with the saturation bounds written out
(`saturating_add` = `min (a + b) 255`, `saturating_sub` = truncated `-`).
-/

namespace LangTip

/-! ## Layout detection and debounce (src/keyboard_hook.rs) -/

/-- `LayoutInfo` (keyboard_hook.rs lines 53-59). -/
structure LayoutInfo where
  name : String
  is_russian : Bool
deriving Repr, DecidableEq

/-- `DEBOUNCE_MS` (keyboard_hook.rs line 50). -/
def DEBOUNCE_MS : Nat := 100

/-- The mutable detector-side state the re-check procedure touches:
`HookState.last_layout` (keyboard_hook.rs line 85) and the global
`LAST_EVENT_MS` atomic (line 95, initialised to 0). -/
structure DetectorState where
  last_layout : String
  lastEventMs : Nat
deriving Repr, DecidableEq

/-- The debounce acceptance test of `check_layout_change_debounced`
(keyboard_hook.rs lines 158-165): the event is accepted — not debounced —
iff `now_ms.saturating_sub(last) >= DEBOUNCE_MS`.  `Nat` subtraction is
exactly `saturating_sub`.  The interval is taken as a parameter so the
property can be stated for a general interval; the code pins it to
`DEBOUNCE_MS = 100`. -/
def acceptAt (interval nowMs lastMs : Nat) : Bool :=
  decide (interval ≤ nowMs - lastMs)

/-- The code's debounce test, with the interval fixed to `DEBOUNCE_MS`. -/
def debounceAccept (nowMs lastMs : Nat) : Bool :=
  acceptAt DEBOUNCE_MS nowMs lastMs

/-- `check_layout_change` (keyboard_hook.rs lines 117-143): compares the
sampled layout name against `last_layout`; on a difference it records the new
name and invokes the callback (returned `Bool` = "callback was called",
i.e. the event was forwarded). -/
def check_layout_change (sampled : LayoutInfo) (st : DetectorState) :
    DetectorState × Bool :=
  if sampled.name ≠ st.last_layout then
    ({ st with last_layout := sampled.name }, true)
  else
    (st, false)

/-- `check_layout_change_debounced` (keyboard_hook.rs lines 146-171): reads
`now`, rejects the event if `now - LAST_EVENT_MS < DEBOUNCE_MS`, otherwise
stores `now` into `LAST_EVENT_MS` (lines 167-168, before the name
comparison) and runs `check_layout_change`. -/
def check_layout_change_debounced (sampled : LayoutInfo) (nowMs : Nat)
    (st : DetectorState) : DetectorState × Bool :=
  if debounceAccept nowMs st.lastEventMs then
    check_layout_change sampled { st with lastEventMs := nowMs }
  else
    (st, false)

/-- The accepted subsequence of a stream of candidate timestamps, under the
debounce state update the code performs: `last` starts at the initial
`LAST_EVENT_MS` value (0 at process start, line 95) and is overwritten with
`now` exactly when the test accepts (line 168). -/
def debounceRun (interval : Nat) : Nat → List Nat → List Nat
  | _, [] => []
  | last, t :: ts =>
    if acceptAt interval t last then
      t :: debounceRun interval t ts
    else
      debounceRun interval last ts

/-! ## Monitors and window placement (src/monitors.rs, src/indicator.rs) -/

/-- `MonitorInfo` (monitors.rs lines 16-36): full monitor rectangle
(`x, y, width, height`), work-area rectangle excluding taskbar and app bars
(`work_x, work_y, work_width, work_height`), and the primary flag. -/
structure MonitorInfo where
  x : Int
  y : Int
  width : Int
  height : Int
  work_x : Int
  work_y : Int
  work_width : Int
  work_height : Int
  is_primary : Bool
deriving Repr, DecidableEq

/-- `Position` (indicator.rs lines 30-37). -/
inductive Position where
  | topLeft
  | topRight
  | bottomLeft
  | bottomRight
  | center
deriving Repr, DecidableEq

/-- `calculate_position` (indicator.rs lines 472-501), verbatim: it reads only
the FULL monitor rectangle fields (`monitor.x/y/width/height`), subtracts a
hardcoded `taskbar_height = 40` for the bottom corners, and centers within
the full rectangle for `Center`.  Rust `i32` division truncates toward zero,
which is `Int.tdiv`. -/
def calculate_position (position : Position) (monitor : MonitorInfo)
    (width height margin : Int) : Int × Int :=
  let taskbar_height : Int := 40
  match position with
  | .topLeft => (monitor.x + margin, monitor.y + margin)
  | .topRight => (monitor.x + monitor.width - width - margin, monitor.y + margin)
  | .bottomLeft =>
      (monitor.x + margin,
       monitor.y + monitor.height - height - margin - taskbar_height)
  | .bottomRight =>
      (monitor.x + monitor.width - width - margin,
       monitor.y + monitor.height - height - margin - taskbar_height)
  | .center =>
      (monitor.x + Int.tdiv (monitor.width - width) 2,
       monitor.y + Int.tdiv (monitor.height - height) 2)

/-- Modelled from the spec (§4.4 Positioning), for comparison with
`calculate_position`: "corners are offset by margin from the work-area edges
(which already excludes taskbars/app bars); center is centered within the
work area". -/
def spec_position (position : Position) (monitor : MonitorInfo)
    (width height margin : Int) : Int × Int :=
  match position with
  | .topLeft => (monitor.work_x + margin, monitor.work_y + margin)
  | .topRight =>
      (monitor.work_x + monitor.work_width - width - margin,
       monitor.work_y + margin)
  | .bottomLeft =>
      (monitor.work_x + margin,
       monitor.work_y + monitor.work_height - height - margin)
  | .bottomRight =>
      (monitor.work_x + monitor.work_width - width - margin,
       monitor.work_y + monitor.work_height - height - margin)
  | .center =>
      (monitor.work_x + Int.tdiv (monitor.work_width - width) 2,
       monitor.work_y + Int.tdiv (monitor.work_height - height) 2)

/-! ## IndicatorWindow fade state machine (src/indicator.rs) -/

/-- `FADE_STEP` (indicator.rs line 205). -/
def FADE_STEP : Nat := 25

/-- The per-window state the Coordinator-facing operations of
`IndicatorWindow` touch: the `alpha`/`target_alpha` atomics (indicator.rs
lines 216-217, `u8`, both initialised to 0 at creation, lines 339-340),
whether the native surface is currently shown (`ShowWindow SW_SHOW`/`SW_HIDE`
state), the displayed text and layout flag held in `WINDOW_STATES` (lines
65-72), and the window position fixed at creation (lines 243-245). -/
structure WinState where
  posX : Int
  posY : Int
  alpha : Nat
  targetAlpha : Nat
  surfaceShown : Bool
  text : String
  is_russian : Bool
deriving Repr, DecidableEq

/-- `IndicatorWindow::show` (indicator.rs lines 363-378): sets
`target_alpha := 255`, shows the surface, raises it and forces a repaint
(the raise/repaint are surface side effects with no further state). -/
def showWindow (w : WinState) : WinState :=
  { w with targetAlpha := 255, surfaceShown := true }

/-- `IndicatorWindow::hide` (indicator.rs lines 382-385): only sets
`target_alpha := 0`; the surface is hidden later by `update_fade` when alpha
reaches 0. -/
def hideWindow (w : WinState) : WinState :=
  { w with targetAlpha := 0 }

/-- `IndicatorWindow::update_text` (indicator.rs lines 346-359). -/
def update_text (w : WinState) (t : String) (ru : Bool) : WinState :=
  { w with text := t, is_russian := ru }

/-- `IndicatorWindow::update_fade` (indicator.rs lines 389-418): if
`alpha = target` return `false`; otherwise step by `FADE_STEP` toward the
target with `u8` saturating arithmetic, clamped at the target, apply the new
alpha, hide the surface when the new alpha is 0, and return `true`. -/
def update_fade (w : WinState) : WinState × Bool :=
  if w.alpha = w.targetAlpha then
    (w, false)
  else
    let newAlpha :=
      if w.alpha < w.targetAlpha then
        min (min (w.alpha + FADE_STEP) 255) w.targetAlpha
      else
        max (w.alpha - FADE_STEP) w.targetAlpha
    ({ w with
        alpha := newAlpha,
        surfaceShown := if newAlpha = 0 then false else w.surfaceShown },
     true)

/-- `k` successive `update_fade` calls (the Coordinator performs one per
loop iteration, main.rs lines 239-242). -/
def fadeIter : Nat → WinState → WinState
  | 0, w => w
  | k + 1, w => (update_fade (fadeIter k w)).1

/-! ## Configuration (src/config.rs) -/

/-- `SoundConfig` (config.rs lines 12-25). -/
structure SoundConfig where
  enabled : Bool
  frequency_en : Nat
  frequency_ru : Nat
  duration_ms : Nat
deriving Repr, DecidableEq

/-- `HotkeyConfig` (config.rs lines 40-50). -/
structure HotkeyConfig where
  enabled : Bool
  toggle : String
  exit : String
deriving Repr, DecidableEq

/-- `ColorsConfig` (config.rs lines 64-71). -/
structure ColorsConfig where
  en : String
  ru : String
deriving Repr, DecidableEq

/-- `PositionsConfig` (config.rs lines 84-95). -/
structure PositionsConfig where
  top_left : Bool
  top_right : Bool
  bottom_left : Bool
  bottom_right : Bool
  center : Bool
deriving Repr, DecidableEq

/-- `FadeConfig` (config.rs lines 111-118): a fade duration and step count
that exist in the configuration schema. -/
structure FadeConfig where
  duration_ms : Nat
  steps : Nat
deriving Repr, DecidableEq

/-- `AppConfig` (config.rs lines 131-165). -/
structure AppConfig where
  font_size_corner : Nat
  font_size_center : Nat
  font_family : String
  update_delay_ms : Nat
  hide_delay_ms : Nat
  margin : Int
  colors : ColorsConfig
  positions : PositionsConfig
  fade : FadeConfig
  sound : SoundConfig
  hotkeys : HotkeyConfig
deriving Repr, DecidableEq

/-- A hexadecimal digit's value, as `u8::from_str_radix` base 16 reads one
character. -/
def hexDigitVal (c : Char) : Option Nat :=
  if c.isDigit then some (c.toNat - 48)
  else if 97 ≤ c.toNat ∧ c.toNat ≤ 102 then some (c.toNat - 87)
  else if 65 ≤ c.toNat ∧ c.toNat ≤ 70 then some (c.toNat - 55)
  else none

/-- Two hex characters as one byte, `255` when either fails to parse
(`unwrap_or(255)`). -/
def hexPair (a b : Char) : Nat :=
  match hexDigitVal a, hexDigitVal b with
  | some x, some y => 16 * x + y
  | _, _ => 255

/-- `parse_hex_color` (config.rs lines 308-318): strip leading `#`
characters, require at least 6 remaining characters, parse three byte pairs
with fallback 255 each; otherwise white `(255,255,255)`. -/
def parse_hex_color (hex : String) : Nat × Nat × Nat :=
  let cs := hex.toList.dropWhile (fun c => c = '#')
  match cs with
  | c0 :: c1 :: c2 :: c3 :: c4 :: c5 :: _ =>
      (hexPair c0 c1, hexPair c2 c3, hexPair c4 c5)
  | _ => (255, 255, 255)

/-- `get_enabled_positions` (indicator.rs lines 504-522). -/
def get_enabled_positions (config : AppConfig) : List Position :=
  (if config.positions.top_left then [Position.topLeft] else []) ++
  (if config.positions.top_right then [Position.topRight] else []) ++
  (if config.positions.bottom_left then [Position.bottomLeft] else []) ++
  (if config.positions.bottom_right then [Position.bottomRight] else []) ++
  (if config.positions.center then [Position.center] else [])

/-- Everything `IndicatorWindow::new` (indicator.rs lines 226-343) derives
from its inputs for the created window: font size selected by position
(lines 232-237), surface size (lines 240-241; the Rust height is
`(font_size as f32 * 1.5) as i32`, which for any realistic `u32` font size
(< 2^22, where `f32` is exact) equals `3 * font_size / 2` truncated),
placement from `calculate_position` with the configured margin (lines
244-245), and the parsed layout colors (lines 295-296).  The created
window's fade state starts at `alpha = 0`, `target_alpha = 0`
(lines 339-340) with the surface not yet shown, text `"EN"` (line 324). -/
structure CreationData where
  fontSize : Nat
  width : Int
  height : Int
  pos : Int × Int
  colorEn : Nat × Nat × Nat
  colorRu : Nat × Nat × Nat
deriving Repr, DecidableEq

/-- The pure creation computation of `IndicatorWindow::new`. -/
def indicatorCreationData (position : Position) (config : AppConfig)
    (monitor : MonitorInfo) : CreationData :=
  let fontSize :=
    if position = Position.center then config.font_size_center
    else config.font_size_corner
  let width : Int := (fontSize * 3 : Nat)
  let height : Int := (3 * fontSize / 2 : Nat)
  { fontSize := fontSize
    width := width
    height := height
    pos := calculate_position position monitor width height config.margin
    colorEn := parse_hex_color config.colors.en
    colorRu := parse_hex_color config.colors.ru }

/-- The `WinState` of a freshly created indicator window (indicator.rs lines
318-341): stored text `"EN"`, not russian, alpha and target 0, surface not
shown until `show()`. -/
def newWindow (position : Position) (config : AppConfig)
    (monitor : MonitorInfo) : WinState :=
  let d := indicatorCreationData position config monitor
  { posX := d.pos.1
    posY := d.pos.2
    alpha := 0
    targetAlpha := 0
    surfaceShown := false
    text := "EN"
    is_russian := false }

/-! ## The Coordinator main loop (src/main.rs lines 156-298)

One iteration of the `loop` in `main` is `coordTick`.  Per-iteration inputs
bundle what the iteration reads from the outside world: the current time, the
`try_recv` outcome on the layout channel, the `VISIBLE` and `SHOULD_EXIT`
atomics (read each tick; set by the tray/hotkey listener threads), and the
config hot-reload poll (whether the 2 s check interval has elapsed with a
changed file modification time, plus what a reload would observe: the
re-sampled current layout, the reloaded hide delay, and the freshly created
indicator windows).  The Windows message pump (lines 286-297) only
dispatches host messages or sleeps; a `WM_QUIT` there also exits the loop
and is folded into the exit flag. -/

/-- `try_recv` outcome (main.rs line 164). -/
inductive RecvResult where
  | ok (layout : LayoutInfo)
  | empty
  | disconnected
deriving Repr, DecidableEq

/-- The Coordinator's own mutable state across iterations (main.rs lines
137-154): `last_layout`, `last_show_time`, `last_hide_time`,
`indicators_shown`, the derived `hide_delay` and `config_sound`, and
`was_visible` (last observed `VISIBLE` value). -/
structure CoordState where
  last_layout : String
  lastShowTime : Nat
  lastHideTime : Nat
  indicators_shown : Bool
  was_visible : Bool
  hideDelay : Nat
  config_sound : SoundConfig
deriving Repr, DecidableEq

/-- `hide_cooldown` (main.rs line 141): 500 ms. -/
def hide_cooldown : Nat := 500

/-- What one iteration reads from outside. -/
structure TickInput where
  now : Nat
  recv : RecvResult
  visibleFlag : Bool
  exitFlag : Bool
  configDue : Bool
  sampledLayout : LayoutInfo
  newHideDelay : Nat
  newSound : SoundConfig
  freshWindows : List WinState
deriving Repr, DecidableEq

/-- The collaborator calls one iteration makes, in the observable categories
the claims speak about: `play_layout_sound` (with its `is_russian`
argument), `show()` on all windows, `hide()` on all windows, and
`update_text` on all windows (with its arguments). -/
structure TickOutput where
  soundPlayed : Option Bool
  showCalled : Bool
  hideCalled : Bool
  textUpdated : Option (String × Bool)
deriving Repr, DecidableEq

/-- No collaborator calls. -/
def emptyOutput : TickOutput :=
  { soundPlayed := none, showCalled := false, hideCalled := false,
    textUpdated := none }

/-- Result of one iteration: continue looping, or break out of the loop
(exit flag observed, or channel disconnected). -/
inductive TickResult where
  | next (s : CoordState) (ws : List WinState) (out : TickOutput)
  | exit (s : CoordState) (ws : List WinState) (out : TickOutput)
deriving Repr, DecidableEq

/-- The part of the iteration after the layout-event match (main.rs lines
207-297): visibility toggle (208-224), auto-hide check (227-237), fade
update on every window (239-242), and the config hot-reload poll (245-284). -/
def coordRest (s : CoordState) (ws : List WinState) (inp : TickInput)
    (out : TickOutput) : TickResult :=
  -- visibility toggle from hotkey/tray (lines 208-224)
  let (s1, ws1, out1) :=
    if inp.visibleFlag ≠ s.was_visible then
      if inp.visibleFlag then
        ({ s with lastShowTime := inp.now, indicators_shown := true,
                  was_visible := true },
         ws.map showWindow, { out with showCalled := true })
      else
        ({ s with indicators_shown := false, lastHideTime := inp.now,
                  was_visible := false },
         ws.map hideWindow, { out with hideCalled := true })
    else (s, ws, out)
  -- auto-hide check, "only hide once" (lines 227-237)
  let (s2, ws2, out2) :=
    if s1.indicators_shown ∧ s1.hideDelay ≤ inp.now - s1.lastShowTime then
      ({ s1 with indicators_shown := false, lastHideTime := inp.now },
       ws1.map hideWindow, { out1 with hideCalled := true })
    else (s1, ws1, out1)
  -- fade animation on every window (lines 239-242)
  let ws3 := ws2.map (fun w => (update_fade w).1)
  -- config hot-reload poll (lines 245-284)
  let (s3, ws4, out3) :=
    if inp.configDue then
      let lay := inp.sampledLayout
      let wsNew := inp.freshWindows.map (fun w =>
        let w1 := update_text w lay.name lay.is_russian
        if inp.visibleFlag then showWindow w1 else w1)
      ({ s2 with hideDelay := inp.newHideDelay,
                 config_sound := inp.newSound,
                 last_layout := lay.name,
                 indicators_shown := inp.visibleFlag,
                 lastShowTime := inp.now },
       wsNew,
       { out2 with textUpdated := some (lay.name, lay.is_russian),
                   showCalled := out2.showCalled ∨ inp.visibleFlag })
    else (s2, ws3, out2)
  .next s3 ws4 out3

/-- One iteration of the Coordinator loop (main.rs lines 156-298), in the
code's order: exit-flag check (157-159), tray menu events (161, external),
layout-event match (164-205) — where an event arriving within
`hide_cooldown` of the last hide is dropped with `continue`, skipping the
whole rest of the iteration (167-170) — then `coordRest`. -/
def coordTick (s : CoordState) (ws : List WinState) (inp : TickInput) :
    TickResult :=
  if inp.exitFlag then .exit s ws emptyOutput
  else
    match inp.recv with
    | .disconnected => .exit s ws emptyOutput
    | .empty => coordRest s ws inp emptyOutput
    | .ok layout =>
      if inp.now - s.lastHideTime < hide_cooldown then
        -- line 169: `continue` — the iteration ends here
        .next s ws emptyOutput
      else if layout.name ≠ s.last_layout then
        let s1 := { s with last_layout := layout.name,
                           lastShowTime := inp.now }
        let ws1 := ws.map (fun w => update_text w layout.name layout.is_russian)
        let (s2, ws2, shown) :=
          if inp.visibleFlag then
            ({ s1 with indicators_shown := true }, ws1.map showWindow, true)
          else (s1, ws1, false)
        coordRest s2 ws2 inp
          { soundPlayed := some layout.is_russian,
            showCalled := shown,
            hideCalled := false,
            textUpdated := some (layout.name, layout.is_russian) }
      else
        coordRest s ws inp emptyOutput

/-! ## Shutdown (src/main.rs lines 300-307) -/

/-- The shutdown steps after the loop breaks. -/
inductive SysAction where
  | stopKeyboardHook
  | stopHotkeys
  | stopTray
  | releaseMutex
deriving Repr, DecidableEq

/-- The shutdown sequence as written at main.rs lines 302-305:
`keyboard_hook.stop(); hotkey_manager.stop(); tray.stop();
release_mutex();`. -/
def shutdownSequence : List SysAction :=
  [SysAction.stopKeyboardHook, SysAction.stopHotkeys, SysAction.stopTray,
   SysAction.releaseMutex]

/-- The main loop driven by a stream of per-iteration inputs: run
iterations until one breaks out of the loop, then perform the shutdown
sequence.  `none` when the input stream is exhausted with the loop still
running (no shutdown has happened yet). -/
def runMain (s : CoordState) (ws : List WinState) :
    List TickInput → Option (List SysAction)
  | [] => none
  | inp :: rest =>
    match coordTick s ws inp with
    | .exit _ _ _ => some shutdownSequence
    | .next s1 ws1 _ => runMain s1 ws1 rest

/-! ## KeyboardLayoutHook start/stop (src/keyboard_hook.rs lines 234-302) -/

/-- The global state `stop` touches: the `RUNNING` atomic (line 92), the
`HOOK_THREAD_ID` atomic (line 93, 0 until the hook thread records itself),
and the `HOOK_STATE` mutex contents (line 91; `None` after `stop` clears
it).  `HookState`'s fields relevant here are mirrored by `DetectorState`. -/
structure HookGlobals where
  running : Bool
  hookThreadId : Nat
  hookState : Option DetectorState
deriving Repr, DecidableEq

/-- The `KeyboardLayoutHook` struct (keyboard_hook.rs lines 234-236): an
optional join handle, modelled by the joined thread's presence. -/
structure KHook where
  thread : Option Nat
deriving Repr, DecidableEq

/-- The externally visible effects of a `stop` call. -/
inductive HookAction where
  | postQuit (threadId : Nat)
  | joinThread
deriving Repr, DecidableEq

/-- `KeyboardLayoutHook::stop` (keyboard_hook.rs lines 273-295): if
`RUNNING` is false, return immediately; otherwise clear `RUNNING`, post
`WM_QUIT` to the recorded hook thread id when it is nonzero, join and drop
the thread handle if present, and clear `HOOK_STATE`. -/
def hookStop (g : HookGlobals) (h : KHook) :
    (HookGlobals × KHook) × List HookAction :=
  if g.running = false then ((g, h), [])
  else
    let quitActs :=
      if g.hookThreadId ≠ 0 then [HookAction.postQuit g.hookThreadId] else []
    let (h1, joinActs) :=
      match h.thread with
      | some _ => (({ thread := none } : KHook), [HookAction.joinThread])
      | none => (h, ([] : List HookAction))
    (({ g with running := false, hookState := none }, h1),
     quitActs ++ joinActs)

/-- `Drop for KeyboardLayoutHook` (keyboard_hook.rs lines 298-302) just
calls `stop`. -/
def hookDrop (g : HookGlobals) (h : KHook) :
    (HookGlobals × KHook) × List HookAction :=
  hookStop g h

/-! ## Theorems -/

/-- Any timestamp the debounce filter accepts lies at least one interval
after the seed value of `last`. -/
theorem debounceRun_mem_bound (interval : Nat) (hpos : 0 < interval) :
    ∀ (last : Nat) (ts : List Nat) (e : Nat),
      e ∈ debounceRun interval last ts → last + interval ≤ e := by
  intro last ts
  induction ts generalizing last with
  | nil => intro e he; simp [debounceRun] at he
  | cons t ts ih =>
    intro e he
    by_cases hacc : acceptAt interval t last
    · have hle : interval ≤ t - last := by
        have := of_decide_eq_true hacc
        exact this
      have htl : last + interval ≤ t := by omega
      simp only [debounceRun, hacc, if_true] at he
      rcases List.mem_cons.mp he with rfl | hmem
      · exact htl
      · have := ih t e hmem
        omega
    · simp only [debounceRun, hacc] at he
      simp at he
      exact ih last e he

/-- Consecutive timestamps accepted by the debounce run are at least one
interval apart. -/
theorem debounceRun_chain (interval : Nat) (hpos : 0 < interval) :
    ∀ (last : Nat) (ts : List Nat),
      List.Chain' (fun a b => a + interval ≤ b) (debounceRun interval last ts) := by
  intro last ts
  induction ts generalizing last with
  | nil => simp [debounceRun]
  | cons t ts ih =>
    by_cases hacc : acceptAt interval t last
    · simp only [debounceRun, hacc, if_true]
      refine List.chain'_cons'.mpr ⟨?_, ih t⟩
      intro b hb
      exact debounceRun_mem_bound interval hpos t ts b (List.mem_of_mem_head? hb)
    · simp only [debounceRun, hacc]
      simp
      exact ih last

/-- C1 (counterexample): the claim's own worked example fails on the code.
`LAST_EVENT_MS` starts at 0 and `check_layout_change_debounced` has no
"no prior acceptance" exemption, so the candidate at t = 0 is rejected
(`0 - 0 = 0 < 100`): for candidates at t = 0, 40, 150, 170 ms with interval
100 ms the accepted subsequence is [150], not the claimed [0, 150]. -/
theorem C1_debounce_counterexample :
    debounceRun DEBOUNCE_MS 0 [0, 40, 150, 170] = [150] ∧
    ([150] : List Nat) ≠ [0, 150] := by
  constructor
  · rfl
  · decide

/-- C1 (amended): `accept(now, lastAcceptedAt, interval)` returns true iff
`now ⊖ lastAcceptedAt ≥ interval` with saturating subtraction and
`lastAcceptedAt` initialised to 0 — there is no separate "no prior
acceptance" case, so an initial candidate is accepted only once `now ≥
interval`.  Consecutive accepted events are always at least one interval
apart, and on the claim's example (interval 100 ms, candidates at
t = 0, 40, 150, 170) exactly the candidate at t = 150 is accepted. -/
theorem C1_debounce_amended :
    (∀ nowMs lastMs : Nat,
        debounceAccept nowMs lastMs = true ↔ DEBOUNCE_MS ≤ nowMs - lastMs) ∧
    (∀ interval last : Nat, ∀ ts : List Nat, 0 < interval →
        List.Chain' (fun a b => a + interval ≤ b)
          (debounceRun interval last ts)) ∧
    debounceRun DEBOUNCE_MS 0 [0, 40, 150, 170] = [150] := by
  refine ⟨?_, ?_, rfl⟩
  · intro nowMs lastMs
    exact decide_eq_true_iff
  · intro interval last ts hpos
    exact debounceRun_chain interval hpos last ts

/-- C7 (counterexample): a re-check whose sampled name equals
`last_layout` does NOT leave the debounce state unchanged.  With
`last_layout = "EN"`, `LAST_EVENT_MS = 0` and a re-check at t = 200 ms
sampling "EN": nothing is forwarded and `last_layout` is unchanged, but
`check_layout_change_debounced` stores 200 into `LAST_EVENT_MS` (line 168)
before comparing names, so the debounce timestamp changes from 0 to 200. -/
theorem C7_recheck_counterexample :
    (check_layout_change_debounced ⟨"EN", false⟩ 200 ⟨"EN", 0⟩).2 = false ∧
    (check_layout_change_debounced ⟨"EN", false⟩ 200 ⟨"EN", 0⟩).1.last_layout
      = "EN" ∧
    (check_layout_change_debounced ⟨"EN", false⟩ 200 ⟨"EN", 0⟩).1.lastEventMs
      = 200 ∧
    (200 : Nat) ≠ 0 := by
  refine ⟨rfl, rfl, rfl, by decide⟩

/-- C7 (amended): on each re-check the detector forwards the sampled layout
(updating `last_layout`) exactly when the debounce filter accepts AND the
sampled name differs from `last_layout`; but the debounce timestamp
`LAST_EVENT_MS` is updated whenever the filter accepts, even when the name
is unchanged — a same-name re-check that passes the debounce leaves
`last_layout` unchanged yet sets the timestamp to `now`.  Only a re-check
rejected by the debounce leaves the whole state unchanged. -/
theorem C7_recheck_amended (sampled : LayoutInfo) (nowMs : Nat)
    (st : DetectorState) :
    ((check_layout_change_debounced sampled nowMs st).2 = true ↔
       (debounceAccept nowMs st.lastEventMs = true ∧
        sampled.name ≠ st.last_layout)) ∧
    ((check_layout_change_debounced sampled nowMs st).2 = true →
       (check_layout_change_debounced sampled nowMs st).1.last_layout
         = sampled.name) ∧
    ((check_layout_change_debounced sampled nowMs st).2 = false →
       (check_layout_change_debounced sampled nowMs st).1.last_layout
         = st.last_layout) ∧
    (debounceAccept nowMs st.lastEventMs = true →
       (check_layout_change_debounced sampled nowMs st).1.lastEventMs
         = nowMs) ∧
    (debounceAccept nowMs st.lastEventMs = false →
       (check_layout_change_debounced sampled nowMs st).1 = st) := by
  by_cases hacc : debounceAccept nowMs st.lastEventMs
  · by_cases hname : sampled.name = st.last_layout
    · simp [check_layout_change_debounced, check_layout_change, hacc, hname]
    · simp [check_layout_change_debounced, check_layout_change, hacc, hname]
  · simp [check_layout_change_debounced, check_layout_change, hacc]

/-- `update_fade` on a settled window (alpha at target) is a no-op
returning `false`. -/
theorem update_fade_of_eq (w : WinState) (h : w.alpha = w.targetAlpha) :
    update_fade w = (w, false) := by
  simp [update_fade, h]

/-- `update_fade` below the target steps up by `FADE_STEP`, clamped; the
new alpha is positive so the surface flag is untouched. -/
theorem update_fade_of_lt (w : WinState) (h : w.alpha < w.targetAlpha) :
    update_fade w =
      ({ w with alpha := min (min (w.alpha + FADE_STEP) 255) w.targetAlpha },
       true) := by
  have hne : w.alpha ≠ w.targetAlpha := Nat.ne_of_lt h
  have hnz : ¬ (min (min (w.alpha + FADE_STEP) 255) w.targetAlpha = 0) := by
    simp only [FADE_STEP]
    omega
  simp only [update_fade, if_neg hne, if_pos h, if_neg hnz]

/-- `update_fade` above the target steps down by `FADE_STEP`, clamped,
hiding the surface when the new alpha is 0. -/
theorem update_fade_of_gt (w : WinState) (h : w.targetAlpha < w.alpha) :
    update_fade w =
      ({ w with alpha := max (w.alpha - FADE_STEP) w.targetAlpha,
                surfaceShown :=
                  if max (w.alpha - FADE_STEP) w.targetAlpha = 0 then false
                  else w.surfaceShown },
       true) := by
  have hne : w.alpha ≠ w.targetAlpha := by omega
  have hnlt : ¬ w.alpha < w.targetAlpha := by omega
  simp [update_fade, hne, hnlt]

/-- Closed form of the fade-in: from alpha 0 toward target 255, the alpha
after `k` calls is `min (25 k) 255`, and the target is untouched. -/
theorem fadeIter_up (w : WinState) (h0 : w.alpha = 0)
    (ht : w.targetAlpha = 255) :
    ∀ k, (fadeIter k w).alpha = min (25 * k) 255 ∧
      (fadeIter k w).targetAlpha = 255 := by
  intro k
  induction k with
  | zero => simpa [fadeIter] using ⟨h0, ht⟩
  | succ k ih =>
    obtain ⟨ha, htt⟩ := ih
    by_cases hfull : 255 ≤ 25 * k
    · have heq : (fadeIter k w).alpha = (fadeIter k w).targetAlpha := by omega
      simp only [fadeIter, update_fade_of_eq _ heq]
      constructor <;> omega
    · have hlt : (fadeIter k w).alpha < (fadeIter k w).targetAlpha := by omega
      simp only [fadeIter, update_fade_of_lt _ hlt]
      refine ⟨?_, htt⟩
      simp only [FADE_STEP, ha, htt]
      omega

/-- Closed form of the fade-out: from alpha 255 toward target 0, the alpha
after `k` calls is `255 - 25 k` (truncated), the target is untouched, and
from the call that reaches alpha 0 on, the surface is hidden. -/
theorem fadeIter_down (w : WinState) (h0 : w.alpha = 255)
    (ht : w.targetAlpha = 0) :
    ∀ k, (fadeIter k w).alpha = 255 - 25 * k ∧
      (fadeIter k w).targetAlpha = 0 ∧
      (11 ≤ k → (fadeIter k w).surfaceShown = false) := by
  intro k
  induction k with
  | zero =>
    refine ⟨by simpa [fadeIter] using h0, by simpa [fadeIter] using ht, ?_⟩
    omega
  | succ k ih =>
    obtain ⟨ha, htt, hsh⟩ := ih
    by_cases hzero : (fadeIter k w).alpha = 0
    · have hk : 11 ≤ k := by omega
      have heq : (fadeIter k w).alpha = (fadeIter k w).targetAlpha := by omega
      simp only [fadeIter, update_fade_of_eq _ heq]
      exact ⟨by omega, htt, fun _ => hsh hk⟩
    · have hgt : (fadeIter k w).targetAlpha < (fadeIter k w).alpha := by omega
      simp only [fadeIter, update_fade_of_gt _ hgt]
      have hstep : max ((fadeIter k w).alpha - FADE_STEP)
          (fadeIter k w).targetAlpha = 255 - 25 * (k + 1) := by
        simp only [FADE_STEP, htt, ha]
        omega
      refine ⟨hstep, htt, ?_⟩
      intro hk
      by_cases hreach : 255 - 25 * (k + 1) = 0
      · simp [hstep, hreach]
      · exfalso
        omega

/-- C4: fade convergence with the fixed step `FADE_STEP = 25` and
`maxAlpha = 255`.  Fading in from alpha 0 toward target 255, `update_fade`
moves alpha monotonically upward along `min (25 k) 255`, never exceeding the
target, reaching exactly 255 at call 11 = ⌈255/25⌉; every further call
returns `false` (not animating) and changes nothing until `show`/`hide`
changes the target.  Symmetrically, fading out from 255 toward 0 the alpha
descends along `255 - 25 k`, reaches 0 at call 11, at which point the
surface is hidden (`ShowWindow SW_HIDE`), and every further call returns
`false`. -/
theorem C4_fade_convergence (w v : WinState)
    (hw0 : w.alpha = 0) (hwt : w.targetAlpha = 255)
    (hv0 : v.alpha = 255) (hvt : v.targetAlpha = 0) :
    (∀ k, (fadeIter k w).alpha = min (25 * k) 255) ∧
    (∀ k, (fadeIter k w).alpha ≤ (fadeIter (k + 1) w).alpha) ∧
    (∀ k, (fadeIter k w).alpha ≤ 255) ∧
    (fadeIter 11 w).alpha = 255 ∧
    (∀ k, 11 ≤ k →
       fadeIter k w = fadeIter 11 w ∧ (update_fade (fadeIter k w)).2 = false) ∧
    (∀ k, (fadeIter k v).alpha = 255 - 25 * k) ∧
    (∀ k, (fadeIter (k + 1) v).alpha ≤ (fadeIter k v).alpha) ∧
    ((fadeIter 11 v).alpha = 0 ∧ (fadeIter 11 v).surfaceShown = false) ∧
    (∀ k, 11 ≤ k →
       fadeIter k v = fadeIter 11 v ∧ (update_fade (fadeIter k v)).2 = false) := by
  have hup := fadeIter_up w hw0 hwt
  have hdn := fadeIter_down v hv0 hvt
  have hupeq : ∀ k, 11 ≤ k →
      (fadeIter k w).alpha = (fadeIter k w).targetAlpha := by
    intro k hk
    have h1 := hup k
    omega
  have hdneq : ∀ k, 11 ≤ k →
      (fadeIter k v).alpha = (fadeIter k v).targetAlpha := by
    intro k hk
    have h1 := hdn k
    omega
  have hupfix : ∀ k, 11 ≤ k → fadeIter k w = fadeIter 11 w := by
    intro k hk
    induction k with
    | zero => omega
    | succ k ih =>
      by_cases hk11 : 11 ≤ k
      · simp only [fadeIter, update_fade_of_eq _ (hupeq k hk11)]
        exact ih hk11
      · have h11 : k + 1 = 11 := by omega
        rw [h11]
  have hdnfix : ∀ k, 11 ≤ k → fadeIter k v = fadeIter 11 v := by
    intro k hk
    induction k with
    | zero => omega
    | succ k ih =>
      by_cases hk11 : 11 ≤ k
      · simp only [fadeIter, update_fade_of_eq _ (hdneq k hk11)]
        exact ih hk11
      · have h11 : k + 1 = 11 := by omega
        rw [h11]
  refine ⟨fun k => (hup k).1, ?_, ?_, ?_, ?_, fun k => (hdn k).1, ?_, ?_, ?_⟩
  · intro k
    have h1 := hup k
    have h2 := hup (k + 1)
    omega
  · intro k
    have h1 := hup k
    omega
  · have h1 := hup 11
    omega
  · intro k hk
    refine ⟨hupfix k hk, ?_⟩
    rw [update_fade_of_eq _ (hupeq k hk)]
  · intro k
    have h1 := hdn k
    have h2 := hdn (k + 1)
    omega
  · have h1 := hdn 11
    exact ⟨by omega, h1.2.2 (by omega)⟩
  · intro k hk
    refine ⟨hdnfix k hk, ?_⟩
    rw [update_fade_of_eq _ (hdneq k hk)]

/-- C4 (witness): the fade theorem evaluated on a concrete window: fading in
from alpha 0 reaches exactly 255 after 11 calls. -/
theorem C4_fade_convergence_witness :
    (fadeIter 11
      ({ posX := 0, posY := 0, alpha := 0, targetAlpha := 255,
         surfaceShown := true, text := "EN", is_russian := false } :
        WinState)).alpha = 255 :=
  (C4_fade_convergence
    { posX := 0, posY := 0, alpha := 0, targetAlpha := 255,
      surfaceShown := true, text := "EN", is_russian := false }
    { posX := 0, posY := 0, alpha := 255, targetAlpha := 0,
      surfaceShown := true, text := "EN", is_russian := false }
    rfl rfl rfl rfl).2.2.2.1

/-- C5: hide cooldown.  A layout-change event received within
`hide_cooldown` (500 ms) of the last hide transition is dropped: the
iteration leaves the Coordinator state untouched (no `last_layout` update,
no `last_show_time` reset), leaves every window untouched (no text update,
no show), and makes no collaborator call (no sound). -/
theorem C5_hide_cooldown_drop (s : CoordState) (ws : List WinState)
    (layout : LayoutInfo) (inp : TickInput)
    (hrecv : inp.recv = RecvResult.ok layout)
    (hexit : inp.exitFlag = false)
    (hcool : inp.now - s.lastHideTime < hide_cooldown) :
    coordTick s ws inp = TickResult.next s ws emptyOutput := by
  simp [coordTick, hexit, hrecv, hcool]

/-- C5 (witness): a concrete dropped event — `last_hide_time` = 1000 ms,
event at 1200 ms, within the 500 ms cooldown. -/
theorem C5_hide_cooldown_drop_witness :
    coordTick
      ({ last_layout := "EN", lastShowTime := 900, lastHideTime := 1000,
         indicators_shown := false, was_visible := true, hideDelay := 5000,
         config_sound := { enabled := true, frequency_en := 800,
                           frequency_ru := 600, duration_ms := 50 } } :
        CoordState)
      [{ posX := 0, posY := 0, alpha := 100, targetAlpha := 0,
         surfaceShown := true, text := "EN", is_russian := false }]
      ({ now := 1200, recv := RecvResult.ok ⟨"RU", true⟩,
         visibleFlag := true, exitFlag := false, configDue := false,
         sampledLayout := ⟨"EN", false⟩, newHideDelay := 5000,
         newSound := { enabled := true, frequency_en := 800,
                       frequency_ru := 600, duration_ms := 50 },
         freshWindows := [] } : TickInput)
      = TickResult.next
          ({ last_layout := "EN", lastShowTime := 900, lastHideTime := 1000,
             indicators_shown := false, was_visible := true, hideDelay := 5000,
             config_sound := { enabled := true, frequency_en := 800,
                               frequency_ru := 600, duration_ms := 50 } } :
            CoordState)
          [{ posX := 0, posY := 0, alpha := 100, targetAlpha := 0,
             surfaceShown := true, text := "EN", is_russian := false }]
          emptyOutput :=
  C5_hide_cooldown_drop _ _ ⟨"RU", true⟩ _ rfl rfl (by decide)

/-- C2 (counterexample): `update_fade` is NOT called on every iteration.
On a tick in which a layout-change event is received and dropped by the
hide cooldown, the `continue` at main.rs line 169 skips the fade-update
loop: the window below is mid-fade-out (alpha 100, target 0) and a call to
`update_fade` would move its alpha to 75, yet the tick returns it with
alpha still 100. -/
theorem C2_fade_counterexample :
    (coordTick
      ({ last_layout := "EN", lastShowTime := 900, lastHideTime := 1000,
         indicators_shown := false, was_visible := true, hideDelay := 5000,
         config_sound := { enabled := true, frequency_en := 800,
                           frequency_ru := 600, duration_ms := 50 } } :
        CoordState)
      [{ posX := 0, posY := 0, alpha := 100, targetAlpha := 0,
         surfaceShown := true, text := "EN", is_russian := false }]
      ({ now := 1200, recv := RecvResult.ok ⟨"RU", true⟩,
         visibleFlag := true, exitFlag := false, configDue := false,
         sampledLayout := ⟨"EN", false⟩, newHideDelay := 5000,
         newSound := { enabled := true, frequency_en := 800,
                       frequency_ru := 600, duration_ms := 50 },
         freshWindows := [] } : TickInput)
      = TickResult.next
          ({ last_layout := "EN", lastShowTime := 900, lastHideTime := 1000,
             indicators_shown := false, was_visible := true, hideDelay := 5000,
             config_sound := { enabled := true, frequency_en := 800,
                               frequency_ru := 600, duration_ms := 50 } } :
            CoordState)
          [{ posX := 0, posY := 0, alpha := 100, targetAlpha := 0,
             surfaceShown := true, text := "EN", is_russian := false }]
          emptyOutput) ∧
    (update_fade
      { posX := 0, posY := 0, alpha := 100, targetAlpha := 0,
        surfaceShown := true, text := "EN", is_russian := false }).1.alpha
      = 75 := by
  constructor
  · rfl
  · rfl

/-- C2 (amended): `update_fade` is called on every indicator window on every
iteration of the Coordinator loop EXCEPT iterations that break out of the
loop (exit flag or channel disconnect) and iterations in which a received
layout-change event is dropped by the hide cooldown — there the `continue`
skips the fade update together with the rest of the iteration.  On every
other iteration (with no config reload, which would destroy and replace the
freshly faded windows) the resulting window list is exactly `update_fade`
mapped over the windows as updated by the earlier branches of the tick. -/
theorem C2_fade_every_tick_amended (s : CoordState) (ws : List WinState)
    (inp : TickInput)
    (hexit : inp.exitFlag = false)
    (hdisc : inp.recv ≠ RecvResult.disconnected)
    (hdrop : ∀ l, inp.recv = RecvResult.ok l →
       hide_cooldown ≤ inp.now - s.lastHideTime)
    (hcfg : inp.configDue = false) :
    ∃ (s1 : CoordState) (out : TickOutput) (wsPre : List WinState),
      coordTick s ws inp =
        TickResult.next s1 (wsPre.map (fun w => (update_fade w).1)) out := by
  cases hrecv : inp.recv with
  | disconnected => exact absurd hrecv hdisc
  | empty =>
    simp only [coordTick, hexit, Bool.false_eq_true, if_false, hrecv,
      coordRest, hcfg]
    repeat' split
    all_goals exact ⟨_, _, _, rfl⟩
  | ok layout =>
    have hnc : ¬ inp.now - s.lastHideTime < hide_cooldown :=
      Nat.not_lt.mpr (hdrop layout hrecv)
    simp only [coordTick, hexit, Bool.false_eq_true, if_false, hrecv,
      hnc, coordRest, hcfg]
    repeat' split
    all_goals exact ⟨_, _, _, rfl⟩

/-- C2 (witness): the amended theorem applied on a concrete quiet tick
(no event, no toggle, no reload): the fade update runs. -/
theorem C2_fade_every_tick_amended_witness :
    ∃ (s1 : CoordState) (out : TickOutput) (wsPre : List WinState),
      coordTick
        ({ last_layout := "EN", lastShowTime := 900, lastHideTime := 1000,
           indicators_shown := true, was_visible := true, hideDelay := 5000,
           config_sound := { enabled := true, frequency_en := 800,
                             frequency_ru := 600, duration_ms := 50 } } :
          CoordState)
        [{ posX := 0, posY := 0, alpha := 100, targetAlpha := 0,
           surfaceShown := true, text := "EN", is_russian := false }]
        ({ now := 1200, recv := RecvResult.empty,
           visibleFlag := true, exitFlag := false, configDue := false,
           sampledLayout := ⟨"EN", false⟩, newHideDelay := 5000,
           newSound := { enabled := true, frequency_en := 800,
                         frequency_ru := 600, duration_ms := 50 },
           freshWindows := [] } : TickInput)
        = TickResult.next s1 (wsPre.map (fun w => (update_fade w).1)) out :=
  C2_fade_every_tick_amended _ _ _ rfl (by decide)
    (fun l h => by cases h) rfl

/-- C6: auto-hide timing.  On a tick that reaches the auto-hide check with
no competing transition (no layout event received, no visibility-flag
toggle, no config reload), `hide()` is called on all windows if and only if
the indicators are shown and `hideDelay` has elapsed since `lastShowTime`;
when it fires it clears `indicators_shown` and sets `lastHideTime := now`,
and when it does not fire the tick changes nothing except advancing the
fade — in particular the branch can never fire while the indicators are
already hidden (`indicators_shown = false` falsifies the right-hand side of
the iff). -/
theorem C6_auto_hide (s : CoordState) (ws : List WinState) (inp : TickInput)
    (hexit : inp.exitFlag = false) (hrecv : inp.recv = RecvResult.empty)
    (hflag : inp.visibleFlag = s.was_visible) (hcfg : inp.configDue = false) :
    ∃ (s1 : CoordState) (ws1 : List WinState) (out : TickOutput),
      coordTick s ws inp = TickResult.next s1 ws1 out ∧
      (out.hideCalled = true ↔
        (s.indicators_shown = true ∧
         s.hideDelay ≤ inp.now - s.lastShowTime)) ∧
      (s.indicators_shown = true → s.hideDelay ≤ inp.now - s.lastShowTime →
        s1.indicators_shown = false ∧ s1.lastHideTime = inp.now ∧
        ws1 = (ws.map hideWindow).map (fun w => (update_fade w).1)) ∧
      (¬ (s.indicators_shown = true ∧
          s.hideDelay ≤ inp.now - s.lastShowTime) →
        s1 = s ∧ ws1 = ws.map (fun w => (update_fade w).1) ∧
        out = emptyOutput) := by
  have hstep : coordTick s ws inp = coordRest s ws inp emptyOutput := by
    simp [coordTick, hexit, hrecv]
  by_cases hc : (s.indicators_shown = true ∧
      s.hideDelay ≤ inp.now - s.lastShowTime)
  · rw [hstep]
    simp only [coordRest, hflag, ne_eq, not_true_eq_false, if_false,
      hc.1, hc.2, and_self, if_true, hcfg, Bool.false_eq_true, if_false]
    refine ⟨_, _, _, rfl, ?_, ?_, ?_⟩
    · simp [hc]
    · intro _ _
      exact ⟨rfl, rfl, rfl⟩
    · intro hnc
      exact hnc.elim
  · rw [hstep]
    have hcb : ¬ ((s.indicators_shown : Prop) ∧
        s.hideDelay ≤ inp.now - s.lastShowTime) := by
      simpa using hc
    simp only [coordRest, hflag, ne_eq, not_true_eq_false, if_false,
      if_neg hcb, hcfg, Bool.false_eq_true]
    refine ⟨_, _, _, rfl, ?_, ?_, ?_⟩
    · simp [emptyOutput, hc]
    · intro h1 h2
      exact absurd ⟨h1, h2⟩ hc
    · intro _
      exact ⟨rfl, rfl, rfl⟩

/-- C6 (witness): a concrete auto-hide firing — indicators shown since
t = 1000 ms, hide delay 5000 ms, tick at t = 6200 ms. -/
theorem C6_auto_hide_witness :
    ∃ (s1 : CoordState) (ws1 : List WinState) (out : TickOutput),
      coordTick
        ({ last_layout := "EN", lastShowTime := 1000, lastHideTime := 0,
           indicators_shown := true, was_visible := true, hideDelay := 5000,
           config_sound := { enabled := true, frequency_en := 800,
                             frequency_ru := 600, duration_ms := 50 } } :
          CoordState)
        [{ posX := 0, posY := 0, alpha := 255, targetAlpha := 255,
           surfaceShown := true, text := "EN", is_russian := false }]
        ({ now := 6200, recv := RecvResult.empty,
           visibleFlag := true, exitFlag := false, configDue := false,
           sampledLayout := ⟨"EN", false⟩, newHideDelay := 5000,
           newSound := { enabled := true, frequency_en := 800,
                         frequency_ru := 600, duration_ms := 50 },
           freshWindows := [] } : TickInput)
        = TickResult.next s1 ws1 out ∧
      (out.hideCalled = true ↔ (true = true ∧ 5000 ≤ 6200 - 1000)) ∧
      (true = true → 5000 ≤ 6200 - 1000 →
        s1.indicators_shown = false ∧ s1.lastHideTime = 6200 ∧
        ws1 = ([{ posX := 0, posY := 0, alpha := 255, targetAlpha := 255,
                  surfaceShown := true, text := "EN",
                  is_russian := false }].map hideWindow).map
                (fun w => (update_fade w).1)) ∧
      (¬ (true = true ∧ 5000 ≤ 6200 - 1000) →
        s1 = { last_layout := "EN", lastShowTime := 1000, lastHideTime := 0,
               indicators_shown := true, was_visible := true,
               hideDelay := 5000,
               config_sound := { enabled := true, frequency_en := 800,
                                 frequency_ru := 600, duration_ms := 50 } } ∧
        ws1 = [{ posX := 0, posY := 0, alpha := 255, targetAlpha := 255,
                 surfaceShown := true, text := "EN",
                 is_russian := false }].map (fun w => (update_fade w).1) ∧
        out = emptyOutput) :=
  C6_auto_hide _ _ _ rfl rfl rfl rfl

/-- C8: fatal channel disconnect and ordered shutdown.  When the
`try_recv` on the layout EventChannel reports the producer disconnected
(and no exit was already requested), the Coordinator loop terminates on
that very iteration — any further queued iterations are never run — and the
shutdown performs, in exactly this order: stop the keyboard hook
(ChangeDetector), stop the hotkey listener, stop the tray listener, release
the single-instance mutex. -/
theorem C8_disconnect_shutdown (s : CoordState) (ws : List WinState)
    (inp : TickInput) (rest : List TickInput)
    (hexit : inp.exitFlag = false)
    (hrecv : inp.recv = RecvResult.disconnected) :
    runMain s ws (inp :: rest) =
      some [SysAction.stopKeyboardHook, SysAction.stopHotkeys,
            SysAction.stopTray, SysAction.releaseMutex] := by
  simp [runMain, coordTick, hexit, hrecv, shutdownSequence]

/-- C8 (witness): a concrete disconnected tick, with further queued inputs
that are never processed. -/
theorem C8_disconnect_shutdown_witness :
    runMain
      ({ last_layout := "EN", lastShowTime := 0, lastHideTime := 0,
         indicators_shown := true, was_visible := true, hideDelay := 5000,
         config_sound := { enabled := true, frequency_en := 800,
                           frequency_ru := 600, duration_ms := 50 } } :
        CoordState)
      []
      [{ now := 100, recv := RecvResult.disconnected,
         visibleFlag := true, exitFlag := false, configDue := false,
         sampledLayout := ⟨"EN", false⟩, newHideDelay := 5000,
         newSound := { enabled := true, frequency_en := 800,
                       frequency_ru := 600, duration_ms := 50 },
         freshWindows := [] },
       { now := 116, recv := RecvResult.empty,
         visibleFlag := true, exitFlag := false, configDue := false,
         sampledLayout := ⟨"EN", false⟩, newHideDelay := 5000,
         newSound := { enabled := true, frequency_en := 800,
                       frequency_ru := 600, duration_ms := 50 },
         freshWindows := [] }] =
      some [SysAction.stopKeyboardHook, SysAction.stopHotkeys,
            SysAction.stopTray, SysAction.releaseMutex] :=
  C8_disconnect_shutdown _ _ _ _ rfl rfl

/-- C9: `stop()` idempotence.  When the hook is not running, `stop` is a
no-op (no state change, no quit message, no join) — this covers a second
consecutive `stop` and the implicit `Drop`-invoked `stop` after an explicit
one, since any `stop` leaves `RUNNING = false`.  When running, `stop` clears
the running flag, posts the quit message addressed to the recorded hook
thread id (when one was recorded), joins and drops the thread handle (when
present), and clears the hook state; hence `stop(); stop()` has exactly the
effect of a single `stop()`. -/
theorem C9_stop_idempotent (g : HookGlobals) (h : KHook) :
    (g.running = false → hookStop g h = ((g, h), [])) ∧
    (hookStop (hookStop g h).1.1 (hookStop g h).1.2 =
       ((hookStop g h).1, [])) ∧
    (hookDrop (hookStop g h).1.1 (hookStop g h).1.2 =
       ((hookStop g h).1, [])) ∧
    (g.running = true →
       (hookStop g h).1.1.running = false ∧
       (hookStop g h).1.1.hookState = none ∧
       (hookStop g h).1.1.hookThreadId = g.hookThreadId ∧
       (g.hookThreadId ≠ 0 →
          HookAction.postQuit g.hookThreadId ∈ (hookStop g h).2) ∧
       (h.thread ≠ none →
          (hookStop g h).1.2.thread = none ∧
          HookAction.joinThread ∈ (hookStop g h).2)) := by
  by_cases hr : g.running = true
  · cases hth : h.thread with
    | none =>
      by_cases hid : g.hookThreadId = 0
      · simp [hookStop, hookDrop, hr, hth, hid]
      · simp [hookStop, hookDrop, hr, hth, hid]
    | some t =>
      by_cases hid : g.hookThreadId = 0
      · simp [hookStop, hookDrop, hr, hth, hid]
      · simp [hookStop, hookDrop, hr, hth, hid]
  · have hrf : g.running = false := by
      cases hb : g.running
      · rfl
      · exact absurd hb hr
    simp [hookStop, hookDrop, hrf]

/-- C3 (counterexample): window placement does NOT use the monitor's
work-area rectangle.  On a monitor whose full rectangle is (0,0)-(1920,1080)
with a 40-pixel top app bar (work area (0,40)-(1920,1080)), a top-left
window of size 96×48 with margin 20 is placed by the code at (20, 20) —
measured from the full monitor edge — while the spec's work-area-based
placement puts it at (20, 60). -/
theorem C3_position_counterexample :
    calculate_position Position.topLeft
      ({ x := 0, y := 0, width := 1920, height := 1080,
         work_x := 0, work_y := 40, work_width := 1920, work_height := 1040,
         is_primary := true } : MonitorInfo) 96 48 20 = (20, 20) ∧
    spec_position Position.topLeft
      ({ x := 0, y := 0, width := 1920, height := 1080,
         work_x := 0, work_y := 40, work_width := 1920, work_height := 1040,
         is_primary := true } : MonitorInfo) 96 48 20 = (20, 60) ∧
    calculate_position Position.topLeft
      ({ x := 0, y := 0, width := 1920, height := 1080,
         work_x := 0, work_y := 40, work_width := 1920, work_height := 1040,
         is_primary := true } : MonitorInfo) 96 48 20 ≠
    spec_position Position.topLeft
      ({ x := 0, y := 0, width := 1920, height := 1080,
         work_x := 0, work_y := 40, work_width := 1920, work_height := 1040,
         is_primary := true } : MonitorInfo) 96 48 20 := by
  refine ⟨rfl, rfl, by decide⟩

/-- C3 (amended): each indicator window's position is computed once at
creation from (position, monitor FULL rectangle, surface size, margin) —
the work-area rectangle is never read.  Corner windows sit at offset
`margin` from the full monitor edges, except that the bottom corners are
additionally offset upward by a hardcoded 40-pixel approximate taskbar
height; the Center window is centered within the full monitor rectangle.
No window operation (`show`, `hide`, `update_text`, `update_fade`) ever
moves a window afterwards. -/
theorem C3_position_amended (m : MonitorInfo) (w hgt margin : Int) :
    (calculate_position Position.topLeft m w hgt margin).1 - m.x = margin ∧
    (calculate_position Position.topLeft m w hgt margin).2 - m.y = margin ∧
    (m.x + m.width) -
      ((calculate_position Position.topRight m w hgt margin).1 + w)
      = margin ∧
    (calculate_position Position.topRight m w hgt margin).2 - m.y = margin ∧
    (calculate_position Position.bottomLeft m w hgt margin).1 - m.x
      = margin ∧
    (m.y + m.height) -
      ((calculate_position Position.bottomLeft m w hgt margin).2 + hgt)
      = margin + 40 ∧
    (m.x + m.width) -
      ((calculate_position Position.bottomRight m w hgt margin).1 + w)
      = margin ∧
    (m.y + m.height) -
      ((calculate_position Position.bottomRight m w hgt margin).2 + hgt)
      = margin + 40 ∧
    calculate_position Position.center m w hgt margin
      = (m.x + Int.tdiv (m.width - w) 2, m.y + Int.tdiv (m.height - hgt) 2) ∧
    (∀ m2 : MonitorInfo, m2.x = m.x → m2.y = m.y → m2.width = m.width →
       m2.height = m.height → ∀ p,
       calculate_position p m2 w hgt margin
         = calculate_position p m w hgt margin) ∧
    (∀ win : WinState,
       ((showWindow win).posX, (showWindow win).posY)
         = (win.posX, win.posY) ∧
       ((hideWindow win).posX, (hideWindow win).posY)
         = (win.posX, win.posY) ∧
       (∀ t ru, ((update_text win t ru).posX, (update_text win t ru).posY)
         = (win.posX, win.posY)) ∧
       (((update_fade win).1.posX, (update_fade win).1.posY)
         = (win.posX, win.posY))) := by
  refine ⟨by simp [calculate_position]; try ring,
    by simp [calculate_position]; try ring,
    by simp [calculate_position]; try ring,
    by simp [calculate_position]; try ring,
    by simp [calculate_position]; try ring,
    by simp [calculate_position]; try ring,
    by simp [calculate_position]; try ring,
    by simp [calculate_position]; try ring,
    rfl, ?_, ?_⟩
  · intro m2 hx hy hw hh p
    cases p <;> simp [calculate_position, hx, hy, hw, hh]
  · intro win
    refine ⟨rfl, rfl, fun t ru => rfl, ?_⟩
    unfold update_fade
    split
    · rfl
    · rfl

/-- C10: fade-configuration noninterference.  The configured `fade`
settings (`fade.duration_ms`, `fade.steps`) are never read by any window
operation: two configurations that differ only in `fade` yield identical
window creation data, identical fresh windows, identical enabled positions,
and identical coordinator parameters (hide delay, sound, hotkeys, colors,
margin, font sizes); the fade animation itself steps alpha by the fixed
constant `FADE_STEP = 25` toward targets 0 (`hide`) or 255 (`show`),
independent of any configuration. -/
theorem C10_fade_noninterference (c1 c2 : AppConfig)
    (hsame : { c1 with fade := c2.fade } = c2) :
    (∀ p m, indicatorCreationData p c1 m = indicatorCreationData p c2 m) ∧
    (∀ p m, newWindow p c1 m = newWindow p c2 m) ∧
    get_enabled_positions c1 = get_enabled_positions c2 ∧
    c1.hide_delay_ms = c2.hide_delay_ms ∧
    c1.sound = c2.sound ∧
    c1.hotkeys = c2.hotkeys ∧
    c1.margin = c2.margin ∧
    c1.colors = c2.colors ∧
    c1.font_size_corner = c2.font_size_corner ∧
    c1.font_size_center = c2.font_size_center ∧
    FADE_STEP = 25 ∧
    (∀ w : WinState, (showWindow w).targetAlpha = 255 ∧
       (hideWindow w).targetAlpha = 0) := by
  obtain ⟨a1, a2, a3, a4, a5, a6, a7, a8, a9, a10, a11⟩ := c1
  obtain ⟨b1, b2, b3, b4, b5, b6, b7, b8, b9, b10, b11⟩ := c2
  simp only [AppConfig.mk.injEq] at hsame
  obtain ⟨rfl, rfl, rfl, rfl, rfl, rfl, rfl, rfl, -, rfl, rfl⟩ := hsame
  refine ⟨fun p m => rfl, fun p m => rfl, rfl, rfl, rfl, rfl, rfl, rfl,
    rfl, rfl, rfl, fun w => ⟨rfl, rfl⟩⟩

/-- C10 (witness): two concrete configurations differing only in the fade
settings produce the same window creation data for a center window on a
1920x1080 monitor. -/
theorem C10_fade_noninterference_witness :
    indicatorCreationData Position.center
      ({ font_size_corner := 32, font_size_center := 64,
         font_family := "Arial", update_delay_ms := 250,
         hide_delay_ms := 5000, margin := 20,
         colors := { en := "#55FF55", ru := "#FF5555" },
         positions := { top_left := true, top_right := true,
                        bottom_left := true, bottom_right := true,
                        center := true },
         fade := { duration_ms := 200, steps := 10 },
         sound := { enabled := true, frequency_en := 800,
                    frequency_ru := 600, duration_ms := 50 },
         hotkeys := { enabled := true, toggle := "ctrl+alt+l",
                      exit := "ctrl+alt+q" } } : AppConfig)
      ({ x := 0, y := 0, width := 1920, height := 1080,
         work_x := 0, work_y := 0, work_width := 1920, work_height := 1040,
         is_primary := true } : MonitorInfo)
      = indicatorCreationData Position.center
      ({ font_size_corner := 32, font_size_center := 64,
         font_family := "Arial", update_delay_ms := 250,
         hide_delay_ms := 5000, margin := 20,
         colors := { en := "#55FF55", ru := "#FF5555" },
         positions := { top_left := true, top_right := true,
                        bottom_left := true, bottom_right := true,
                        center := true },
         fade := { duration_ms := 900, steps := 3 },
         sound := { enabled := true, frequency_en := 800,
                    frequency_ru := 600, duration_ms := 50 },
         hotkeys := { enabled := true, toggle := "ctrl+alt+l",
                      exit := "ctrl+alt+q" } } : AppConfig)
      ({ x := 0, y := 0, width := 1920, height := 1080,
         work_x := 0, work_y := 0, work_width := 1920, work_height := 1040,
         is_primary := true } : MonitorInfo) :=
  (C10_fade_noninterference _ _ rfl).1 Position.center
    { x := 0, y := 0, width := 1920, height := 1080,
      work_x := 0, work_y := 0, work_width := 1920, work_height := 1040,
      is_primary := true }

end LangTip
